import Mathlib

/-!
Shallow embedding of the booking backend (Backers/index.js).

The relational store is modelled as in-memory lists of rows. Timestamps are
integers (milliseconds); SQL NOW() becomes an explicit `now` argument on the
operations that stamp timestamps. Each HTTP handler becomes a pure function
from a request and the current store to an HTTP result paired with the new
store. JS falsiness of request fields (`!kind` is true for a missing field,
an empty string, or the number 0) is modelled explicitly.
-/

set_option autoImplicit false

/-- HTTP outcome of a handler: a success body with its status code, or an
error status code with the JSON error string sent by the handler. -/
inductive HttpResult (α : Type) where
  | ok : Nat → α → HttpResult α
  | err : Nat → String → HttpResult α
deriving Repr, DecidableEq

/-- Status code of a result, whichever branch it is. -/
def HttpResult.code {α : Type} : HttpResult α → Nat
  | .ok c _ => c
  | .err c _ => c

/-- A row of the resources table, as projected by the RETURNING clauses of
the resource handlers (id, kind, name, subcategory, type, quantity, status). -/
structure Resource where
  id : Int
  kind : String
  name : String
  subcategory : Option String
  type : Option String
  quantity : Int
  status : String
deriving Repr, DecidableEq

/-- A row of the bookings table. -/
structure Booking where
  id : Int
  kind : String
  resource_id : Int
  resource_name : String
  start_dt : Int
  end_dt : Int
  quantity : Option Int
  status : String
  requester_name : Option String
  requester_role : Option String
  purpose : Option String
  created_at : Int
  started_at : Option Int
  ended_at : Option Int
  canceled_at : Option Int
  updated_at : Int
deriving Repr, DecidableEq

/-- The relational store: both tables plus the serial id counters. -/
structure DB where
  resources : List Resource
  bookings : List Booking
  nextResourceId : Int
  nextBookingId : Int
deriving Repr, DecidableEq

/-- The freshly bootstrapped store: empty tables, serial counters at 1. -/
def DB.empty : DB := ⟨[], [], 1, 1⟩

/-- JS falsiness of an optional string request field: absent or empty. -/
def jsStrMissing : Option String → Bool
  | none => true
  | some s => s == ""

/-- JS falsiness of an optional numeric request field: absent or zero. -/
def jsIntMissing : Option Int → Bool
  | none => true
  | some n => n == 0

/-- Model of `v || null` on an optional string: empty collapses to null. -/
def jsStrOrNull : Option String → Option String
  | none => none
  | some s => if s == "" then none else some s

/-- Model of `v || null` on an optional number: zero collapses to null. -/
def jsIntOrNull : Option Int → Option Int
  | none => none
  | some n => if n == 0 then none else some n

/-- Model of `String(x).toUpperCase()`, written character by character so that it
reduces inside the kernel. -/
def jsToUpper (s : String) : String := String.mk (s.data.map Char.toUpper)

/-- Statuses counted as active: REQUEST and ONGOING. -/
def isActiveStatus (s : String) : Bool := s == "REQUEST" || s == "ONGOING"

/-- Statuses counted as terminal: SUCCESS and CANCEL. -/
def isTerminalStatus (s : String) : Bool := s == "SUCCESS" || s == "CANCEL"

/-- The per-row predicate of the conflict query in POST /api/bookings:
same upper-cased kind, same resource, active status, and
`NOT (newEnd <= start_dt OR newStart >= end_dt)`. -/
def conflictWith (kindU : String) (rid s e : Int) (b : Booking) : Bool :=
  b.kind == kindU && b.resource_id == rid && isActiveStatus b.status &&
    !(decide (e ≤ b.start_dt) || decide (s ≥ b.end_dt))

/-- The conflict query: does any booking row satisfy `conflictWith`? -/
def hasConflict (db : DB) (kindU : String) (rid s e : Int) : Bool :=
  db.bookings.any (conflictWith kindU rid s e)

/-- Request body of POST /api/bookings. `none` marks an absent field. -/
structure BookingReq where
  kind : Option String
  resource_id : Option Int
  resource_name : Option String
  start_dt : Option Int
  end_dt : Option Int
  quantity : Option Int
  requester_name : Option String
  requester_role : Option String
  purpose : Option String
deriving Repr, DecidableEq

/-- The row inserted by POST /api/bookings on success. -/
def mkRequestBooking (now : Int) (req : BookingReq) (db : DB) : Booking :=
  { id := db.nextBookingId
    kind := jsToUpper (req.kind.getD "")
    resource_id := req.resource_id.getD 0
    resource_name := req.resource_name.getD ""
    start_dt := req.start_dt.getD 0
    end_dt := req.end_dt.getD 0
    quantity := jsIntOrNull req.quantity
    status := "REQUEST"
    requester_name := jsStrOrNull req.requester_name
    requester_role := jsStrOrNull req.requester_role
    purpose := jsStrOrNull req.purpose
    created_at := now
    started_at := none
    ended_at := none
    canceled_at := none
    updated_at := now }

/-- POST /api/bookings: required-field check, interval validation, conflict
query against active bookings of the same kind and resource, then insert
with status REQUEST. The route carries no auth guard. -/
def createBooking (now : Int) (req : BookingReq) (db : DB) :
    HttpResult Booking × DB :=
  if jsStrMissing req.kind || jsIntMissing req.resource_id ||
      jsStrMissing req.resource_name || req.start_dt.isNone || req.end_dt.isNone then
    (.err 400 "Missing required fields", db)
  else if req.end_dt.getD 0 ≤ req.start_dt.getD 0 then
    (.err 400 "End time must be after start time", db)
  else if hasConflict db (jsToUpper (req.kind.getD "")) (req.resource_id.getD 0)
      (req.start_dt.getD 0) (req.end_dt.getD 0) then
    (.err 409 "CONFLICT", db)
  else
    (.ok 201 (mkRequestBooking now req db),
      { db with bookings := db.bookings ++ [mkRequestBooking now req db]
                nextBookingId := db.nextBookingId + 1 })

/-- Model of the transition UPDATE with RETURNING: 404 when no row has
the id, otherwise rewrite the matching row and return it. -/
def updateBookingRow (id : Int) (f : Booking → Booking) (db : DB) :
    HttpResult Booking × DB :=
  match db.bookings.find? (fun b => b.id == id) with
  | none => (.err 404 "Not found", db)
  | some b =>
    (.ok 200 (f b),
      { db with bookings := db.bookings.map (fun x => if x.id == id then f x else x) })

/-- POST /api/bookings/:id/start: status ONGOING, stamp started_at. -/
def startBooking (now : Int) (id : Int) (db : DB) : HttpResult Booking × DB :=
  updateBookingRow id
    (fun b => { b with status := "ONGOING", started_at := some now, updated_at := now }) db

/-- POST /api/bookings/:id/finish: status SUCCESS, stamp ended_at. -/
def finishBooking (now : Int) (id : Int) (db : DB) : HttpResult Booking × DB :=
  updateBookingRow id
    (fun b => { b with status := "SUCCESS", ended_at := some now, updated_at := now }) db

/-- POST /api/bookings/:id/cancel: status CANCEL, stamp canceled_at. -/
def cancelBooking (now : Int) (id : Int) (db : DB) : HttpResult Booking × DB :=
  updateBookingRow id
    (fun b => { b with status := "CANCEL", canceled_at := some now, updated_at := now }) db

/-- The three enumerated resource statuses. -/
def validResourceStatus (s : String) : Bool :=
  s == "Available" || s == "Maintenance" || s == "Inactive"

/-- Modelled from the spec: the schema bootstrap lives in db.js, which is not
among the source files; the spec says resource creation "rejects duplicate
(kind, name) pairs with a conflict error", i.e. a unique constraint on
(kind, name) whose violation (code 23505) the handlers turn into 409.
This predicate is that constraint check; `excludeId` is the row being
updated, exempt from colliding with itself. -/
def duplicateResource (db : DB) (kindU nm : String) (excludeId : Option Int) : Bool :=
  db.resources.any (fun r =>
    r.kind == kindU && r.name == nm &&
      (match excludeId with
       | none => true
       | some i => !(r.id == i)))

/-- Request body of POST /api/resources. `none` marks an absent field, so the
destructuring defaults (quantity 1, status Available) apply to it. -/
structure ResourceReq where
  kind : Option String
  name : Option String
  subcategory : Option String
  type : Option String
  quantity : Option Int
  status : Option String
deriving Repr, DecidableEq

/-- The row inserted by POST /api/resources on success: kind upper-cased,
quantity defaulted to 1, status defaulted to Available. -/
def mkResource (req : ResourceReq) (db : DB) : Resource :=
  { id := db.nextResourceId
    kind := jsToUpper (req.kind.getD "")
    name := req.name.getD ""
    subcategory := req.subcategory
    type := req.type
    quantity := req.quantity.getD 1
    status := req.status.getD "Available" }

/-- POST /api/resources: kind and name required, quantity must be >= 0,
status must be one of the three enumerated values; kind is stored
upper-cased; a duplicate (kind, name) pair yields 409. -/
def createResource (req : ResourceReq) (db : DB) : HttpResult Resource × DB :=
  if jsStrMissing req.kind || jsStrMissing req.name then
    (.err 400 "kind and name are required", db)
  else if req.quantity.getD 1 < 0 then
    (.err 400 "quantity must be >= 0", db)
  else if !validResourceStatus (req.status.getD "Available") then
    (.err 400 "invalid status", db)
  else if duplicateResource db (jsToUpper (req.kind.getD "")) (req.name.getD "") none then
    (.err 409 "Duplicate resource name for this kind", db)
  else
    (.ok 201 (mkResource req db),
      { db with resources := db.resources ++ [mkResource req db]
                nextResourceId := db.nextResourceId + 1 })

/-- Request body of PATCH /api/resources/:id after the allow-list filter:
only name, subcategory, type, quantity and status survive; any other key of
the body has already been dropped. `none` marks a field not being updated. -/
structure UpdateReq where
  name : Option String
  subcategory : Option String
  type : Option String
  quantity : Option Int
  status : Option String
deriving Repr, DecidableEq

/-- Checks whether the filtered update set is empty. -/
def UpdateReq.isEmpty (u : UpdateReq) : Bool :=
  u.name.isNone && u.subcategory.isNone && u.type.isNone &&
    u.quantity.isNone && u.status.isNone

/-- Apply the update set to a resource row (the SET clause). -/
def applyUpdate (u : UpdateReq) (r : Resource) : Resource :=
  { r with name := u.name.getD r.name
           subcategory := (u.subcategory.map some).getD r.subcategory
           type := (u.type.map some).getD r.type
           quantity := u.quantity.getD r.quantity
           status := u.status.getD r.status }

/-- PATCH /api/resources/:id: rejects an empty update set, a negative
quantity and an invalid status with 400; 404 when the id matches no row;
the unique (kind, name) constraint (modelled, see `duplicateResource`)
yields 409; otherwise rewrites the allow-listed fields of the row. -/
def updateResource (id : Int) (u : UpdateReq) (db : DB) : HttpResult Resource × DB :=
  if u.isEmpty then
    (.err 400 "no fields to update", db)
  else if (match u.quantity with | some q => decide (q < 0) | none => false) then
    (.err 400 "quantity must be >= 0", db)
  else if (match u.status with | some s => !validResourceStatus s | none => false) then
    (.err 400 "invalid status", db)
  else
    match db.resources.find? (fun r => r.id == id) with
    | none => (.err 404 "not found", db)
    | some r =>
      if duplicateResource db (applyUpdate u r).kind (applyUpdate u r).name (some id) then
        (.err 409 "Duplicate resource name for this kind", db)
      else
        (.ok 200 (applyUpdate u r),
          { db with resources :=
              db.resources.map (fun x => if x.id == id then applyUpdate u x else x) })

/-- DELETE /api/resources/:id. The `isHard` flag is the parsed `?hard=` or
`?mode=` query (true exactly when the lower-cased trimmed value is 1, true
or hard). Soft mode (default) sets status Inactive and
touches nothing else. Hard mode runs in one transaction: 409 in_use when an
active booking references the resource (rollback), otherwise delete the
terminal bookings referencing it and the resource row; a missing resource
rolls the whole transaction back and yields 404. -/
def deleteResource (id : Int) (isHard : Bool) (db : DB) : HttpResult Unit × DB :=
  if !isHard then
    if db.resources.any (fun r => r.id == id) then
      (.ok 204 (),
        { db with resources :=
            db.resources.map (fun r => if r.id == id then { r with status := "Inactive" } else r) })
    else
      (.err 404 "not found", db)
  else
    if db.bookings.any (fun b => b.resource_id == id && isActiveStatus b.status) then
      (.err 409 "in_use", db)
    else if db.resources.any (fun r => r.id == id) then
      (.ok 204 (),
        { db with
            resources := db.resources.filter (fun r => !(r.id == id))
            bookings := db.bookings.filter (fun b =>
              !(b.resource_id == id && isTerminalStatus b.status)) })
    else
      (.err 404 "not found", db)

/-- The identity a session carries after login. -/
structure SessionUser where
  id : Int
  username : String
  role : String
deriving Repr, DecidableEq

/-- The requireAuth middleware: 401 without a session, 403 when the session
role is outside the allowed set, otherwise pass (`none`). -/
def requireAuth (roles : List String) (session : Option SessionUser) :
    Option (Nat × String) :=
  match session with
  | none => some (401, "Unauthorized: Please login")
  | some u =>
    if roles.contains u.role then none
    else some (403, "Forbidden: Insufficient permissions")

/-- Run a handler behind requireAuth: on auth failure the store is untouched
and the middleware error is returned. -/
def withAuth {α : Type} (roles : List String) (session : Option SessionUser)
    (handler : DB → HttpResult α × DB) (db : DB) : HttpResult α × DB :=
  match requireAuth roles session with
  | some cm => (.err cm.1 cm.2, db)
  | none => handler db

/-- Route POST /api/resources, registered behind requireAuth ADMIN/STAFF. -/
def postResourcesEp (session : Option SessionUser) (req : ResourceReq) (db : DB) :
    HttpResult Resource × DB :=
  withAuth ["ADMIN", "STAFF"] session (createResource req) db

/-- Route PATCH /api/resources/:id, behind requireAuth ADMIN/STAFF. -/
def patchResourcesEp (session : Option SessionUser) (id : Int) (u : UpdateReq)
    (db : DB) : HttpResult Resource × DB :=
  withAuth ["ADMIN", "STAFF"] session (updateResource id u) db

/-- Route DELETE /api/resources/:id, behind requireAuth ADMIN/STAFF. -/
def deleteResourcesEp (session : Option SessionUser) (id : Int) (isHard : Bool)
    (db : DB) : HttpResult Unit × DB :=
  withAuth ["ADMIN", "STAFF"] session (deleteResource id isHard) db

/-- Route POST /api/bookings: registered with NO auth middleware; the session
argument is ignored by the handler. -/
def postBookingsEp (_session : Option SessionUser) (now : Int) (req : BookingReq)
    (db : DB) : HttpResult Booking × DB :=
  createBooking now req db

/-- Route POST /api/bookings/:id/start, behind requireAuth ADMIN/STAFF. -/
def startBookingEp (session : Option SessionUser) (now : Int) (id : Int) (db : DB) :
    HttpResult Booking × DB :=
  withAuth ["ADMIN", "STAFF"] session (startBooking now id) db

/-- Route POST /api/bookings/:id/finish, behind requireAuth ADMIN/STAFF. -/
def finishBookingEp (session : Option SessionUser) (now : Int) (id : Int) (db : DB) :
    HttpResult Booking × DB :=
  withAuth ["ADMIN", "STAFF"] session (finishBooking now id) db

/-- Route POST /api/bookings/:id/cancel, behind requireAuth ADMIN/STAFF. -/
def cancelBookingEp (session : Option SessionUser) (now : Int) (id : Int) (db : DB) :
    HttpResult Booking × DB :=
  withAuth ["ADMIN", "STAFF"] session (cancelBooking now id) db

/-- Insert a booking into a list kept in descending created_at order. -/
def insertByCreatedDesc (b : Booking) : List Booking → List Booking
  | [] => [b]
  | x :: xs =>
    if x.created_at ≤ b.created_at then b :: x :: xs
    else x :: insertByCreatedDesc b xs

/-- Route GET /api/bookings: public read, `ORDER BY created_at DESC`. -/
def getBookingsEp (_session : Option SessionUser) (db : DB) :
    HttpResult (List Booking) :=
  .ok 200 (db.bookings.foldr insertByCreatedDesc [])

/-- Insert a resource into a list kept in ascending (kind, name) order. -/
def insertByKindName (r : Resource) : List Resource → List Resource
  | [] => [r]
  | x :: xs =>
    if r.kind < x.kind || (r.kind == x.kind && decide (r.name ≤ x.name)) then r :: x :: xs
    else x :: insertByKindName r xs

/-- Route GET /api/resources: public read; with a kind query the rows of that
upper-cased kind ordered by name, otherwise all rows ordered by kind, name. -/
def getResourcesEp (_session : Option SessionUser) (kindQ : Option String)
    (db : DB) : HttpResult (List Resource) :=
  match kindQ with
  | some k =>
    .ok 200 (((db.resources.filter (fun r => r.kind == jsToUpper k)).foldr
      insertByKindName []))
  | none => .ok 200 (db.resources.foldr insertByKindName [])

/-- Two booking rows conflict when they share the (kind, resource) pair, both
are active, and their half-open intervals overlap — the overlap phrased as in
the conflict query, `NOT (end1 <= start2 OR start1 >= end2)`. -/
def conflictPairB (b1 b2 : Booking) : Bool :=
  b1.kind == b2.kind && b1.resource_id == b2.resource_id &&
    isActiveStatus b1.status && isActiveStatus b2.status &&
    !(decide (b1.end_dt ≤ b2.start_dt) || decide (b1.start_dt ≥ b2.end_dt))

/-- The store invariant of the spec: no two distinct booking rows conflict. -/
def noActiveOverlap : List Booking → Bool
  | [] => true
  | b :: rest => rest.all (fun x => !conflictPairB b x) && noActiveOverlap rest

/-- One mutating handler call, any arguments. -/
inductive Step : DB → DB → Prop where
  | createB : ∀ (now : Int) (req : BookingReq) (db : DB),
      Step db (createBooking now req db).2
  | startB : ∀ (now id : Int) (db : DB), Step db (startBooking now id db).2
  | finishB : ∀ (now id : Int) (db : DB), Step db (finishBooking now id db).2
  | cancelB : ∀ (now id : Int) (db : DB), Step db (cancelBooking now id db).2
  | createR : ∀ (req : ResourceReq) (db : DB), Step db (createResource req db).2
  | updateR : ∀ (id : Int) (u : UpdateReq) (db : DB),
      Step db (updateResource id u db).2
  | deleteR : ∀ (id : Int) (isHard : Bool) (db : DB),
      Step db (deleteResource id isHard db).2

/-- Stores reachable from the bootstrapped empty store by handler calls. -/
inductive Reachable : DB → Prop where
  | init : Reachable DB.empty
  | step : ∀ (db db2 : DB), Reachable db → Step db db2 → Reachable db2

/-- A concrete well-formed booking request, used by concrete instances. -/
def exReq : BookingReq :=
  { kind := some "ROOM", resource_id := some 1, resource_name := some "Room A"
    start_dt := some 10, end_dt := some 20, quantity := none
    requester_name := none, requester_role := none, purpose := none }

/-- A concrete resource-creation request, used by concrete instances. -/
def exRReq : ResourceReq :=
  { kind := some "Room", name := some "Room A", subcategory := none
    type := none, quantity := none, status := none }

/-! ### Lemmas about the overlap invariant -/

theorem noActiveOverlap_iff_pairwise (bs : List Booking) :
    noActiveOverlap bs = true ↔
      List.Pairwise (fun a b => conflictPairB a b = false) bs := by
  induction bs with
  | nil => simp [noActiveOverlap]
  | cons a bs ih =>
    simp [noActiveOverlap, List.all_eq_true, List.pairwise_cons, ih, and_comm]

theorem noActiveOverlap_filter (p : Booking → Bool) (bs : List Booking)
    (h : noActiveOverlap bs = true) : noActiveOverlap (bs.filter p) = true := by
  rw [noActiveOverlap_iff_pairwise] at h ⊢
  exact h.filter p

/-- Rewriting one row to an inactive status (and possibly new timestamps)
while keeping kind, resource and interval cannot introduce a conflict. -/
theorem noActiveOverlap_map_inactive (id : Int) (f : Booking → Booking)
    (hstat : ∀ b, isActiveStatus (f b).status = false)
    (bs : List Booking) (h : noActiveOverlap bs = true) :
    noActiveOverlap (bs.map (fun x => if x.id == id then f x else x)) = true := by
  rw [noActiveOverlap_iff_pairwise] at h ⊢
  rw [List.pairwise_map]
  refine h.imp ?_
  intro a b hab
  by_cases ha : a.id == id
  · simp [ha, conflictPairB, hstat a]
  · by_cases hb : b.id == id
    · simp [ha, hb, conflictPairB, hstat b]
    · simp [ha, hb, hab]

theorem conflictPairB_mkRequest (x : Booking) (now : Int) (req : BookingReq)
    (db : DB) :
    conflictPairB x (mkRequestBooking now req db)
      = conflictWith (jsToUpper (req.kind.getD "")) (req.resource_id.getD 0)
          (req.start_dt.getD 0) (req.end_dt.getD 0) x := by
  simp [conflictPairB, conflictWith, mkRequestBooking, isActiveStatus,
    ge_iff_le, Bool.or_comm]

theorem createBooking_preserves (now : Int) (req : BookingReq) (db : DB)
    (h : noActiveOverlap db.bookings = true) :
    noActiveOverlap (createBooking now req db).2.bookings = true := by
  unfold createBooking
  split
  · exact h
  · split
    · exact h
    · split
      · exact h
      · rename_i hconf
        simp only []
        rw [noActiveOverlap_iff_pairwise, List.pairwise_append]
        refine ⟨(noActiveOverlap_iff_pairwise _).mp h, List.pairwise_singleton _ _, ?_⟩
        intro a ha b hb
        simp only [List.mem_singleton] at hb
        subst hb
        rw [conflictPairB_mkRequest]
        rw [Bool.not_eq_true] at hconf
        unfold hasConflict at hconf
        rw [List.any_eq_false] at hconf
        exact Bool.eq_false_iff.mpr (hconf a ha)

theorem finishBooking_preserves (now id : Int) (db : DB)
    (h : noActiveOverlap db.bookings = true) :
    noActiveOverlap (finishBooking now id db).2.bookings = true := by
  unfold finishBooking updateBookingRow
  cases hf : db.bookings.find? (fun b => b.id == id) with
  | none => exact h
  | some b =>
    exact noActiveOverlap_map_inactive id
      (fun b => { b with status := "SUCCESS", ended_at := some now, updated_at := now })
      (fun b => rfl) db.bookings h

theorem cancelBooking_preserves (now id : Int) (db : DB)
    (h : noActiveOverlap db.bookings = true) :
    noActiveOverlap (cancelBooking now id db).2.bookings = true := by
  unfold cancelBooking updateBookingRow
  cases hf : db.bookings.find? (fun b => b.id == id) with
  | none => exact h
  | some b =>
    exact noActiveOverlap_map_inactive id
      (fun b => { b with status := "CANCEL", canceled_at := some now, updated_at := now })
      (fun b => rfl) db.bookings h

theorem deleteResource_preserves (id : Int) (isHard : Bool) (db : DB)
    (h : noActiveOverlap db.bookings = true) :
    noActiveOverlap (deleteResource id isHard db).2.bookings = true := by
  unfold deleteResource
  split
  · split
    · exact h
    · exact h
  · split
    · exact h
    · split
      · exact noActiveOverlap_filter _ _ h
      · exact h

theorem createResource_bookings_eq (req : ResourceReq) (db : DB) :
    (createResource req db).2.bookings = db.bookings := by
  unfold createResource
  split
  · rfl
  · split
    · rfl
    · split
      · rfl
      · split
        · rfl
        · rfl

theorem updateResource_bookings_eq (id : Int) (u : UpdateReq) (db : DB) :
    (updateResource id u db).2.bookings = db.bookings := by
  unfold updateResource
  split
  · rfl
  · split
    · rfl
    · split
      · rfl
      · split
        · rfl
        · split
          · rfl
          · rfl

/-- The UPDATE of a transition never removes a row: every booking id present
before is present after. -/
theorem updateBookingRow_keeps_ids (id : Int) (f : Booking → Booking)
    (hid : ∀ b, (f b).id = b.id) (db : DB) :
    ∀ x ∈ db.bookings, ∃ y ∈ (updateBookingRow id f db).2.bookings, y.id = x.id := by
  intro x hx
  unfold updateBookingRow
  cases hf : db.bookings.find? (fun b => b.id == id) with
  | none => exact ⟨x, hx, rfl⟩
  | some b =>
    refine ⟨if x.id == id then f x else x, List.mem_map_of_mem _ hx, ?_⟩
    by_cases hxi : x.id == id
    · simp [hxi, hid]
    · simp [hxi]

/-! ### Claim theorems -/

/-- Claim C2, counterexample: the overlap invariant is NOT maintained in
every reachable store, and the start transition does not preserve it. A
booking is created on [10,20), canceled, an identical booking is created
(no conflict, the first is terminal), and then start is invoked on the
first booking: the store now holds two active overlapping bookings for the
same kind and resource, although the store before the start step satisfied
the invariant. -/
theorem c2_reachable_overlap_counterexample :
    Reachable (startBooking 3 1 (createBooking 2 exReq
        (cancelBooking 1 1 (createBooking 0 exReq DB.empty).2).2).2).2
  ∧ noActiveOverlap (createBooking 2 exReq
        (cancelBooking 1 1 (createBooking 0 exReq DB.empty).2).2).2.bookings = true
  ∧ noActiveOverlap (startBooking 3 1 (createBooking 2 exReq
        (cancelBooking 1 1 (createBooking 0 exReq DB.empty).2).2).2).2.bookings = false := by
  refine ⟨?_, by decide, by decide⟩
  exact Reachable.step _ _
    (Reachable.step _ _
      (Reachable.step _ _
        (Reachable.step _ _ Reachable.init (Step.createB 0 exReq DB.empty))
        (Step.cancelB 1 1 _))
      (Step.createB 2 exReq _))
    (Step.startB 3 1 _)

/-- Claim C2, amended: every mutating operation except the start transition
preserves the overlap invariant (no two distinct bookings with the same kind
and resource, both active, with overlapping half-open intervals); start can
violate it by re-activating a terminal booking that overlaps an active one,
so the invariant does not hold in every reachable store. -/
theorem c2_invariant_preserved_except_start (db : DB)
    (h : noActiveOverlap db.bookings = true) :
    (∀ (now : Int) (req : BookingReq),
        noActiveOverlap (createBooking now req db).2.bookings = true)
  ∧ (∀ (now id : Int), noActiveOverlap (finishBooking now id db).2.bookings = true)
  ∧ (∀ (now id : Int), noActiveOverlap (cancelBooking now id db).2.bookings = true)
  ∧ (∀ (id : Int) (isHard : Bool),
        noActiveOverlap (deleteResource id isHard db).2.bookings = true)
  ∧ (∀ (req : ResourceReq), noActiveOverlap (createResource req db).2.bookings = true)
  ∧ (∀ (id : Int) (u : UpdateReq),
        noActiveOverlap (updateResource id u db).2.bookings = true) := by
  refine ⟨fun now req => createBooking_preserves now req db h,
    fun now id => finishBooking_preserves now id db h,
    fun now id => cancelBooking_preserves now id db h,
    fun id isHard => deleteResource_preserves id isHard db h,
    fun req => ?_, fun id u => ?_⟩
  · rw [createResource_bookings_eq]; exact h
  · rw [updateResource_bookings_eq]; exact h

/-- Claim C2, witness: the amended preservation applied at a concrete store
holding one active booking. -/
theorem c2_invariant_preserved_except_start_witness :
    noActiveOverlap (createBooking 0 exReq (createBooking 0 exReq DB.empty).2).2.bookings
      = true :=
  (c2_invariant_preserved_except_start (createBooking 0 exReq DB.empty).2 (by decide)).1
    0 exReq

/-- Claim C3, counterexample: terminal bookings are not immutable. A booking
is created and finished (status SUCCESS); invoking start on it then turns
its status to ONGOING and restamps started_at and updated_at. -/
theorem c3_terminal_mutated_counterexample :
    (finishBooking 1 1 (createBooking 0 exReq DB.empty).2).2.bookings.map
        Booking.status = ["SUCCESS"]
  ∧ (startBooking 2 1 (finishBooking 1 1
        (createBooking 0 exReq DB.empty).2).2).2.bookings.map
        Booking.status = ["ONGOING"] := by
  exact ⟨by decide, by decide⟩

/-- Claim C3, amended: no operation other than the hard-delete cleanup
removes a booking (the transitions and soft delete keep every booking id),
but terminal bookings are not immutable: the start, finish and cancel
transitions overwrite the status and stamp the timestamps of an existing
booking whatever its current status, SUCCESS and CANCEL included. -/
theorem c3_transitions_ignore_terminal (now id : Int) (db : DB) (b : Booking)
    (hfind : db.bookings.find? (fun x => x.id == id) = some b) :
    (startBooking now id db).1
        = .ok 200 { b with status := "ONGOING", started_at := some now, updated_at := now }
  ∧ (finishBooking now id db).1
        = .ok 200 { b with status := "SUCCESS", ended_at := some now, updated_at := now }
  ∧ (cancelBooking now id db).1
        = .ok 200 { b with status := "CANCEL", canceled_at := some now, updated_at := now }
  ∧ (∀ x ∈ db.bookings, ∃ y ∈ (startBooking now id db).2.bookings, y.id = x.id)
  ∧ (∀ x ∈ db.bookings, ∃ y ∈ (finishBooking now id db).2.bookings, y.id = x.id)
  ∧ (∀ x ∈ db.bookings, ∃ y ∈ (cancelBooking now id db).2.bookings, y.id = x.id)
  ∧ (∀ rid : Int, (deleteResource rid false db).2.bookings = db.bookings) := by
  refine ⟨?_, ?_, ?_, ?_, ?_, ?_, ?_⟩
  · simp [startBooking, updateBookingRow, hfind]
  · simp [finishBooking, updateBookingRow, hfind]
  · simp [cancelBooking, updateBookingRow, hfind]
  · exact updateBookingRow_keeps_ids id
      (fun b => { b with status := "ONGOING", started_at := some now, updated_at := now })
      (fun x => rfl) db
  · exact updateBookingRow_keeps_ids id
      (fun b => { b with status := "SUCCESS", ended_at := some now, updated_at := now })
      (fun x => rfl) db
  · exact updateBookingRow_keeps_ids id
      (fun b => { b with status := "CANCEL", canceled_at := some now, updated_at := now })
      (fun x => rfl) db
  · intro rid
    unfold deleteResource
    simp only [Bool.not_false, if_true]
    split
    · rfl
    · rfl

/-- Claim C3, witness: the amended statement applied to a store holding one
SUCCESS booking. -/
theorem c3_transitions_ignore_terminal_witness :
    (startBooking 2 1 (finishBooking 1 1 (createBooking 0 exReq DB.empty).2).2).1.code
      = 200 := by
  have h := c3_transitions_ignore_terminal 2 1
    (finishBooking 1 1 (createBooking 0 exReq DB.empty).2).2
    { mkRequestBooking 0 exReq DB.empty with
        status := "SUCCESS", ended_at := some 1, updated_at := 1 }
    (by decide)
  rw [h.1]
  rfl

/-- Claim C5: a booking request whose end is at or before its start is
rejected with a 400 validation error and the store is unchanged; the error
does not depend on the store at all, so no conflict check takes part in it
and nothing is inserted. -/
theorem c5_inverted_interval_rejected (now : Int) (req : BookingReq) (s e : Int)
    (hs : req.start_dt = some s) (he : req.end_dt = some e) (hle : e ≤ s) :
    ∃ msg, ∀ db : DB, createBooking now req db = (.err 400 msg, db) := by
  by_cases hmiss : (jsStrMissing req.kind || jsIntMissing req.resource_id ||
      jsStrMissing req.resource_name || req.start_dt.isNone || req.end_dt.isNone) = true
  · exact ⟨"Missing required fields", fun db => by simp [createBooking, hmiss]⟩
  · refine ⟨"End time must be after start time", fun db => ?_⟩
    simp only [Bool.or_eq_true, not_or, Bool.not_eq_true] at hmiss
    simp [createBooking, hmiss, hs, he, hle]

/-- Claim C5, witness: a zero-duration request on the empty store. -/
theorem c5_inverted_interval_rejected_witness :
    ∃ msg, ∀ db : DB,
      createBooking 0 { exReq with end_dt := some 10 } db = (.err 400 msg, db) :=
  c5_inverted_interval_rejected 0 { exReq with end_dt := some 10 } 10 10 rfl rfl
    (by decide)

/-- Claim C6: on a missing booking id each transition returns 404 and leaves
the store unchanged; on an existing id, start sets status ONGOING stamping
started_at, finish sets SUCCESS stamping ended_at, cancel sets CANCEL
stamping canceled_at, each also setting updated_at, and the updated row is
returned. -/
theorem c6_transitions_stamp_and_404 (now id : Int) (db : DB) :
    (db.bookings.find? (fun x => x.id == id) = none →
        startBooking now id db = (.err 404 "Not found", db)
      ∧ finishBooking now id db = (.err 404 "Not found", db)
      ∧ cancelBooking now id db = (.err 404 "Not found", db))
  ∧ (∀ b, db.bookings.find? (fun x => x.id == id) = some b →
        startBooking now id db
          = (.ok 200 { b with status := "ONGOING", started_at := some now, updated_at := now },
             { db with bookings := db.bookings.map (fun x => if x.id == id
                 then { x with status := "ONGOING", started_at := some now, updated_at := now }
                 else x) })
      ∧ finishBooking now id db
          = (.ok 200 { b with status := "SUCCESS", ended_at := some now, updated_at := now },
             { db with bookings := db.bookings.map (fun x => if x.id == id
                 then { x with status := "SUCCESS", ended_at := some now, updated_at := now }
                 else x) })
      ∧ cancelBooking now id db
          = (.ok 200 { b with status := "CANCEL", canceled_at := some now, updated_at := now },
             { db with bookings := db.bookings.map (fun x => if x.id == id
                 then { x with status := "CANCEL", canceled_at := some now, updated_at := now }
                 else x) })) := by
  constructor
  · intro hnone
    refine ⟨?_, ?_, ?_⟩ <;> simp [startBooking, finishBooking, cancelBooking,
      updateBookingRow, hnone]
  · intro b hsome
    refine ⟨?_, ?_, ?_⟩ <;> simp [startBooking, finishBooking, cancelBooking,
      updateBookingRow, hsome]

/-- Claim C6, witness: start on a store holding one REQUEST booking. -/
theorem c6_transitions_stamp_and_404_witness :
    startBooking 5 1 (createBooking 0 exReq DB.empty).2
      = (.ok 200 { mkRequestBooking 0 exReq DB.empty with
            status := "ONGOING", started_at := some 5, updated_at := 5 },
         { (createBooking 0 exReq DB.empty).2 with bookings :=
            (createBooking 0 exReq DB.empty).2.bookings.map (fun x => if x.id == 1
              then { x with status := "ONGOING", started_at := some 5, updated_at := 5 }
              else x) }) := by
  have h := (c6_transitions_stamp_and_404 5 1 (createBooking 0 exReq DB.empty).2).2
    (mkRequestBooking 0 exReq DB.empty) (by decide)
  exact h.1

/-- Claim C10: booking creation never consults the resources table. With the
required fields present, a proper interval and no overlapping active
booking, creation succeeds with 201 — identically so on the same store with
the resources table emptied, so success does not require the referenced
resource to exist in any particular state — and no booking creation ever
yields a 404. -/
theorem c10_no_resource_existence_check (now : Int) (req : BookingReq) (db : DB)
    (s e : Int)
    (hk : jsStrMissing req.kind = false) (hr : jsIntMissing req.resource_id = false)
    (hn : jsStrMissing req.resource_name = false)
    (hs : req.start_dt = some s) (he : req.end_dt = some e) (hlt : s < e)
    (hc : hasConflict db (jsToUpper (req.kind.getD "")) (req.resource_id.getD 0) s e
      = false) :
    createBooking now req db
      = (.ok 201 (mkRequestBooking now req db),
         { db with bookings := db.bookings ++ [mkRequestBooking now req db]
                   nextBookingId := db.nextBookingId + 1 })
  ∧ createBooking now req { db with resources := [] }
      = (.ok 201 (mkRequestBooking now req db),
         { db with resources := []
                   bookings := db.bookings ++ [mkRequestBooking now req db]
                   nextBookingId := db.nextBookingId + 1 })
  ∧ (∀ (now2 : Int) (req2 : BookingReq) (db2 : DB),
      (createBooking now2 req2 db2).1.code ≠ 404) := by
  have hnle : ¬ (e ≤ s) := not_le.mpr hlt
  refine ⟨?_, ?_, ?_⟩
  · simp [createBooking, hk, hr, hn, hs, he, hnle, mkRequestBooking]
    simpa [hs, he] using hc
  · simp [createBooking, hk, hr, hn, hs, he, hnle, mkRequestBooking]
    simpa [hs, he, hasConflict] using hc
  · intro now2 req2 db2
    unfold createBooking
    split
    · simp [HttpResult.code]
    · split
      · simp [HttpResult.code]
      · split
        · simp [HttpResult.code]
        · simp [HttpResult.code]

/-- Claim C10, witness: creation succeeds on the empty store, whose
resources table holds no row at all. -/
theorem c10_no_resource_existence_check_witness :
    createBooking 0 exReq DB.empty
      = (.ok 201 (mkRequestBooking 0 exReq DB.empty),
         { DB.empty with bookings := DB.empty.bookings ++ [mkRequestBooking 0 exReq DB.empty]
                         nextBookingId := DB.empty.nextBookingId + 1 }) :=
  (c10_no_resource_existence_check 0 exReq DB.empty 10 20 rfl rfl rfl rfl rfl
    (by decide) (by decide)).1

/-- Claim C1: with the required fields present and a proper interval
(end > start), booking creation succeeds — 201, the row appended with
status REQUEST — exactly when no active booking of the same upper-cased
kind and resource overlaps [start, end) in the half-open sense; when a
conflict exists the handler answers 409 CONFLICT without touching the
store; and a booking merely touching a boundary of the window never
satisfies the conflict predicate. -/
theorem c1_conflict_detection (now : Int) (req : BookingReq) (db : DB) (s e : Int)
    (hk : jsStrMissing req.kind = false) (hr : jsIntMissing req.resource_id = false)
    (hn : jsStrMissing req.resource_name = false)
    (hs : req.start_dt = some s) (he : req.end_dt = some e) (hlt : s < e) :
    ((∃ b, createBooking now req db
          = (.ok 201 b,
             { db with bookings := db.bookings ++ [b]
                       nextBookingId := db.nextBookingId + 1 })
        ∧ b.status = "REQUEST")
      ↔ hasConflict db (jsToUpper (req.kind.getD "")) (req.resource_id.getD 0) s e
          = false)
  ∧ (hasConflict db (jsToUpper (req.kind.getD "")) (req.resource_id.getD 0) s e
        = true
      → createBooking now req db = (.err 409 "CONFLICT", db))
  ∧ (∀ b : Booking, b.end_dt = s ∨ b.start_dt = e
      → conflictWith (jsToUpper (req.kind.getD "")) (req.resource_id.getD 0) s e b
          = false) := by
  have hnle : ¬ (e ≤ s) := not_le.mpr hlt
  refine ⟨?_, ?_, ?_⟩
  · by_cases hc : hasConflict db (jsToUpper (req.kind.getD ""))
        (req.resource_id.getD 0) s e = true
    · rw [hc]
      simp only [Bool.true_eq_false, iff_false]
      rintro ⟨b, heq, _⟩
      rw [show createBooking now req db = (.err 409 "CONFLICT", db) by
        simp [createBooking, hk, hr, hn, hs, he, hnle, hc]] at heq
      simp at heq
    · rw [Bool.not_eq_true] at hc
      rw [hc]
      simp only [iff_true]
      refine ⟨mkRequestBooking now req db, ?_, rfl⟩
      simp [createBooking, hk, hr, hn, hs, he, hnle, hc]
  · intro hc
    simp [createBooking, hk, hr, hn, hs, he, hnle, hc]
  · intro b hb
    rcases hb with hb | hb
    · simp [conflictWith, hb]
    · simp [conflictWith, hb]

/-- Claim C1, witness: on a store holding one active booking on [10,20),
creating [10,20) again has a conflict and is answered 409; the iff applied
on the empty store yields the 201 insertion. -/
theorem c1_conflict_detection_witness :
    createBooking 7 exReq (createBooking 0 exReq DB.empty).2
      = (.err 409 "CONFLICT", (createBooking 0 exReq DB.empty).2) :=
  (c1_conflict_detection 7 exReq (createBooking 0 exReq DB.empty).2 10 20
    rfl rfl rfl rfl rfl (by decide)).2.1 (by decide)

/-- Claim C4, counterexample: booking creation is NOT behind the auth guard.
With no session at all, POST /api/bookings answers 201 and inserts the row
instead of answering 401 and leaving the store unchanged. -/
theorem c4_public_booking_creation_counterexample :
    (postBookingsEp none 0 exReq DB.empty).1.code = 201
  ∧ (postBookingsEp none 0 exReq DB.empty).2 ≠ DB.empty := by
  exact ⟨by decide, by decide⟩

/-- Claim C4, amended: every mutating endpoint except booking creation is
behind requireAuth with allowed set ADMIN/STAFF — no session gives 401 and
an out-of-set role gives 403, in both cases without a state change; booking
creation ignores the session entirely and behaves as the bare handler; the
read endpoints answer 200 without any session. -/
theorem c4_auth_tiers_except_booking_creation (db : DB) (now id : Int)
    (rreq : ResourceReq) (u : UpdateReq) (breq : BookingReq) (isHard : Bool)
    (usr : SessionUser) (hrole : usr.role ≠ "ADMIN" ∧ usr.role ≠ "STAFF") :
    postResourcesEp none rreq db = (.err 401 "Unauthorized: Please login", db)
  ∧ patchResourcesEp none id u db = (.err 401 "Unauthorized: Please login", db)
  ∧ deleteResourcesEp none id isHard db = (.err 401 "Unauthorized: Please login", db)
  ∧ startBookingEp none now id db = (.err 401 "Unauthorized: Please login", db)
  ∧ finishBookingEp none now id db = (.err 401 "Unauthorized: Please login", db)
  ∧ cancelBookingEp none now id db = (.err 401 "Unauthorized: Please login", db)
  ∧ postResourcesEp (some usr) rreq db
      = (.err 403 "Forbidden: Insufficient permissions", db)
  ∧ patchResourcesEp (some usr) id u db
      = (.err 403 "Forbidden: Insufficient permissions", db)
  ∧ deleteResourcesEp (some usr) id isHard db
      = (.err 403 "Forbidden: Insufficient permissions", db)
  ∧ startBookingEp (some usr) now id db
      = (.err 403 "Forbidden: Insufficient permissions", db)
  ∧ finishBookingEp (some usr) now id db
      = (.err 403 "Forbidden: Insufficient permissions", db)
  ∧ cancelBookingEp (some usr) now id db
      = (.err 403 "Forbidden: Insufficient permissions", db)
  ∧ (∀ sess : Option SessionUser,
      postBookingsEp sess now breq db = createBooking now breq db)
  ∧ (getBookingsEp none db).code = 200
  ∧ (∀ kindQ : Option String, (getResourcesEp none kindQ db).code = 200) := by
  refine ⟨?_, ?_, ?_, ?_, ?_, ?_, ?_, ?_, ?_, ?_, ?_, ?_, fun sess => rfl, rfl, ?_⟩
  · simp [postResourcesEp, withAuth, requireAuth]
  · simp [patchResourcesEp, withAuth, requireAuth]
  · simp [deleteResourcesEp, withAuth, requireAuth]
  · simp [startBookingEp, withAuth, requireAuth]
  · simp [finishBookingEp, withAuth, requireAuth]
  · simp [cancelBookingEp, withAuth, requireAuth]
  · simp [postResourcesEp, withAuth, requireAuth, hrole.1, hrole.2]
  · simp [patchResourcesEp, withAuth, requireAuth, hrole.1, hrole.2]
  · simp [deleteResourcesEp, withAuth, requireAuth, hrole.1, hrole.2]
  · simp [startBookingEp, withAuth, requireAuth, hrole.1, hrole.2]
  · simp [finishBookingEp, withAuth, requireAuth, hrole.1, hrole.2]
  · simp [cancelBookingEp, withAuth, requireAuth, hrole.1, hrole.2]
  · intro kindQ
    cases kindQ <;> rfl

/-- Claim C4, witness: a session with role VIEWER is refused with 403 on
resource creation, the store untouched. -/
theorem c4_auth_tiers_witness :
    postResourcesEp (some ⟨9, "vera", "VIEWER"⟩) exRReq DB.empty
      = (.err 403 "Forbidden: Insufficient permissions", DB.empty) :=
  (c4_auth_tiers_except_booking_creation DB.empty 0 0 exRReq
    ⟨none, none, none, none, none⟩ exReq false ⟨9, "vera", "VIEWER"⟩
    ⟨by decide, by decide⟩).2.2.2.2.2.2.1

/-- Claim C7: resource creation requires kind and name (400 when absent),
rejects a negative quantity and a status outside the three enumerated
values with 400, stores kind upper-cased with quantity defaulting to 1 and
status to Available, and rejects a duplicate (kind, name) pair with 409
leaving the store unchanged. The duplicate check is the modelled unique
constraint (see `duplicateResource`). -/
theorem c7_resource_creation (req : ResourceReq) (db : DB) :
    ((jsStrMissing req.kind || jsStrMissing req.name) = true →
        createResource req db = (.err 400 "kind and name are required", db))
  ∧ ((jsStrMissing req.kind || jsStrMissing req.name) = false →
      req.quantity.getD 1 < 0 →
        createResource req db = (.err 400 "quantity must be >= 0", db))
  ∧ ((jsStrMissing req.kind || jsStrMissing req.name) = false →
      ¬ req.quantity.getD 1 < 0 →
      validResourceStatus (req.status.getD "Available") = false →
        createResource req db = (.err 400 "invalid status", db))
  ∧ ((jsStrMissing req.kind || jsStrMissing req.name) = false →
      ¬ req.quantity.getD 1 < 0 →
      validResourceStatus (req.status.getD "Available") = true →
      duplicateResource db (jsToUpper (req.kind.getD "")) (req.name.getD "") none
          = true →
        createResource req db = (.err 409 "Duplicate resource name for this kind", db))
  ∧ ((jsStrMissing req.kind || jsStrMissing req.name) = false →
      ¬ req.quantity.getD 1 < 0 →
      validResourceStatus (req.status.getD "Available") = true →
      duplicateResource db (jsToUpper (req.kind.getD "")) (req.name.getD "") none
          = false →
        createResource req db
          = (.ok 201 (mkResource req db),
             { db with resources := db.resources ++ [mkResource req db]
                       nextResourceId := db.nextResourceId + 1 }))
  ∧ (mkResource req db).kind = jsToUpper (req.kind.getD "")
  ∧ (req.quantity = none → (mkResource req db).quantity = 1)
  ∧ (req.status = none → (mkResource req db).status = "Available") := by
  refine ⟨?_, ?_, ?_, ?_, ?_, rfl, ?_, ?_⟩
  · intro h; simp [createResource, h]
  · intro h hq; simp [createResource, h, hq]
  · intro h hq hst; simp [createResource, h, hq, hst]
  · intro h hq hst hdup; simp [createResource, h, hq, hst, hdup]
  · intro h hq hst hdup; simp [createResource, h, hq, hst, hdup]
  · intro h; simp [mkResource, h]
  · intro h; simp [mkResource, h]

/-- Claim C7, witness: creating "Room A" of kind Room twice; the first
succeeds with kind upper-cased and the defaults filled in, the second is
refused with the duplicate conflict, the store unchanged. -/
theorem c7_resource_creation_witness :
    createResource exRReq (createResource exRReq DB.empty).2
      = (.err 409 "Duplicate resource name for this kind",
         (createResource exRReq DB.empty).2) :=
  (c7_resource_creation exRReq (createResource exRReq DB.empty).2).2.2.2.1
    (by decide) (by decide) (by decide) (by decide)

/-- Claim C8: soft delete (the default) answers 204 and only rewrites the
status of the addressed resource to Inactive, every booking untouched (404
on a missing id); hard delete answers 409 in_use with the store unchanged
whenever an active booking references the resource, and otherwise removes
the terminal bookings referencing the resource together with the resource
row in one step. -/
theorem c8_delete_modes (id : Int) (db : DB) :
    (db.resources.any (fun r => r.id == id) = true →
        deleteResource id false db
          = (.ok 204 (),
             { db with resources := db.resources.map (fun r =>
                 if r.id == id then { r with status := "Inactive" } else r) }))
  ∧ (db.resources.any (fun r => r.id == id) = false →
        deleteResource id false db = (.err 404 "not found", db))
  ∧ (db.bookings.any (fun b => b.resource_id == id && isActiveStatus b.status)
        = true →
        deleteResource id true db = (.err 409 "in_use", db))
  ∧ (db.bookings.any (fun b => b.resource_id == id && isActiveStatus b.status)
        = false →
      db.resources.any (fun r => r.id == id) = true →
        deleteResource id true db
          = (.ok 204 (),
             { db with
                 resources := db.resources.filter (fun r => !(r.id == id))
                 bookings := db.bookings.filter (fun b =>
                   !(b.resource_id == id && isTerminalStatus b.status)) })) := by
  refine ⟨?_, ?_, ?_, ?_⟩
  · intro h; simp [deleteResource, h]
  · intro h; simp [deleteResource, h]
  · intro h; simp [deleteResource, h]
  · intro ha hr; simp [deleteResource, ha, hr]

/-- Claim C8, witness: hard delete of a resource referenced by a REQUEST
booking is refused with in_use and nothing changes. -/
theorem c8_delete_modes_witness :
    deleteResource 1 true
        (createBooking 0 exReq (createResource exRReq DB.empty).2).2
      = (.err 409 "in_use",
         (createBooking 0 exReq (createResource exRReq DB.empty).2).2) :=
  (c8_delete_modes 1
    (createBooking 0 exReq (createResource exRReq DB.empty).2).2).2.2.1
    (by decide)

/-- Claim C9: a resource update touches only the allow-listed fields — the
rewritten row keeps its id and kind — and only the addressed row; an empty
update set, a negative quantity and an invalid status are refused with 400,
and every error outcome (400, 404 and the modelled duplicate 409) leaves
the store unchanged. -/
theorem c9_update_allowlist (id : Int) (u : UpdateReq) (db : DB) :
    (u.isEmpty = true → updateResource id u db = (.err 400 "no fields to update", db))
  ∧ (∀ q : Int, u.quantity = some q → q < 0 →
        updateResource id u db = (.err 400 "quantity must be >= 0", db))
  ∧ (∀ st : String, u.status = some st → validResourceStatus st = false →
      (∀ q : Int, u.quantity = some q → ¬ q < 0) →
        updateResource id u db = (.err 400 "invalid status", db))
  ∧ (∀ (c : Nat) (m : String) (db2 : DB),
        updateResource id u db = (.err c m, db2) → db2 = db)
  ∧ (∀ (r2 : Resource) (db2 : DB),
        updateResource id u db = (.ok 200 r2, db2) →
          db2 = { db with resources := db.resources.map (fun x =>
            if x.id == id then applyUpdate u x else x) })
  ∧ (∀ x : Resource, (applyUpdate u x).id = x.id ∧ (applyUpdate u x).kind = x.kind) := by
  refine ⟨?_, ?_, ?_, ?_, ?_, fun x => ⟨rfl, rfl⟩⟩
  · intro h; simp [updateResource, h]
  · intro q hq hneg
    have hne : u.isEmpty = false := by simp [UpdateReq.isEmpty, hq]
    simp [updateResource, hne, hq, hneg]
  · intro st hst hbad hqok
    have hne : u.isEmpty = false := by simp [UpdateReq.isEmpty, hst]
    have hqfalse : (match u.quantity with
        | some q => decide (q < 0) | none => false) = false := by
      cases hq : u.quantity with
      | none => rfl
      | some q => simpa using hqok q hq
    simp [updateResource, hne, hqfalse, hst, hbad]
  · intro c m db2 heq
    unfold updateResource at heq
    split at heq
    · injection heq with h1 h2; exact h2.symm
    · split at heq
      · injection heq with h1 h2; exact h2.symm
      · split at heq
        · injection heq with h1 h2; exact h2.symm
        · split at heq
          · injection heq with h1 h2; exact h2.symm
          · split at heq
            · injection heq with h1 h2; exact h2.symm
            · injection heq with h1 h2; exact absurd h1 (by simp)
  · intro r2 db2 heq
    unfold updateResource at heq
    split at heq
    · injection heq with h1 h2; exact absurd h1 (by simp)
    · split at heq
      · injection heq with h1 h2; exact absurd h1 (by simp)
      · split at heq
        · injection heq with h1 h2; exact absurd h1 (by simp)
        · split at heq
          · injection heq with h1 h2; exact absurd h1 (by simp)
          · split at heq
            · injection heq with h1 h2; exact absurd h1 (by simp)
            · injection heq with h1 h2; exact h2.symm

/-- Claim C9, witness: an empty update set on a store holding one resource
is refused with 400 and the store is unchanged. -/
theorem c9_update_allowlist_witness :
    updateResource 1 ⟨none, none, none, none, none⟩ (createResource exRReq DB.empty).2
      = (.err 400 "no fields to update", (createResource exRReq DB.empty).2) :=
  (c9_update_allowlist 1 ⟨none, none, none, none, none⟩
    (createResource exRReq DB.empty).2).1 (by decide)
